import Mathlib

/-!
Verification of the screen-recorder-pro repository: a shallow embedding of
the capture-session timer, the fragment assembler, the upload client, and
the server routes (POST / GET-stream / DELETE on recordings), with theorems
settling the frozen claims about them.
-/

namespace SRP

/-! ### Capture-session timer (screen-recorder component, `startTimer` / `stopRecording`)

The component keeps React state `{ isRecording, recordingTime, ... }` plus refs
for the `MediaRecorder` and the interval timer.  `stopRecording` is guarded by
`mediaRecorderRef.current && state.isRecording`.  Crucially, `state` in a React
function component is a per-render snapshot captured by the closures created
during that render: the interval callback installed by `startTimer` (a
`useCallback` with an empty dependency list) invokes the `stopRecording` that
was created in a render in which `state.isRecording` was `false` (recording can
only be started while not recording, and the `setState` that sets it to `true`
only takes effect on a later render).  So every `stopRecording` call issued
from the timer callback sees the snapshot value `false`.  We therefore model
`stopRecording` as parameterised by the snapshot of `state.isRecording` its
closure captured.
-/

/-- React/session state relevant to the duration cap:
`isRecording`/`recordingTime` are the React state fields, `recorderActive`
means the `MediaRecorder` has not been stopped, `timerActive` means the
1-second interval is installed, `mediaRecorderSet` means
`mediaRecorderRef.current` is non-null. -/
structure SessionState where
  isRecording : Bool
  recordingTime : Nat
  recorderActive : Bool
  timerActive : Bool
  mediaRecorderSet : Bool
deriving DecidableEq, Repr

/-- `stopRecording` from the screen-recorder component.  `snapshotIsRecording`
is the value of `state.isRecording` captured by the closure that is being
invoked.  When the guard passes it stops the `MediaRecorder` (whose `onstop`
handler then clears `isRecording`), clears the interval, and releases the
sources; otherwise it does nothing. -/
def stopRecording (snapshotIsRecording : Bool) (s : SessionState) : SessionState :=
  if s.mediaRecorderSet && snapshotIsRecording then
    { s with recorderActive := false, timerActive := false, isRecording := false }
  else s

/-- One firing of the 1-second interval installed by `startTimer`: if the
current `recordingTime` has reached 180 it calls `stopRecording` and leaves
the elapsed time unchanged, otherwise it increments the elapsed time by one.
The `stopRecording` closure it invokes captured `state.isRecording = false`
(see the section comment), hence the `false` snapshot argument.  A cleared
timer no longer fires. -/
def timerTick (s : SessionState) : SessionState :=
  if s.timerActive then
    if s.recordingTime ≥ 180 then stopRecording false s
    else { s with recordingTime := s.recordingTime + 1 }
  else s

/-- The state right after `startRecording` succeeded: recording, elapsed 0,
recorder running, timer installed, recorder ref set. -/
def startState : SessionState :=
  { isRecording := true, recordingTime := 0, recorderActive := true,
    timerActive := true, mediaRecorderSet := true }

/-- The session state after `n` timer ticks from a fresh start. -/
def runTicks : Nat → SessionState
  | 0 => startState
  | n + 1 => timerTick (runTicks n)

theorem stopRecording_false_eq (s : SessionState) : stopRecording false s = s := by
  simp [stopRecording]

theorem runTicks_eq (n : Nat) :
    runTicks n = { startState with recordingTime := min n 180 } := by
  induction n with
  | zero => simp [runTicks, startState]
  | succ n ih =>
    rw [runTicks, ih]
    by_cases h : n ≥ 180
    · have h1 : min n 180 = 180 := by omega
      have h2 : min (n + 1) 180 = 180 := by omega
      simp [timerTick, startState, stopRecording, h1, h2]
    · have h1 : min n 180 = n := by omega
      have h2 : min (n + 1) 180 = n + 1 := by omega
      simp [timerTick, startState, h1, h2, Nat.not_le.mpr (by omega : n < 180)]

/-- **C1.** Elapsed time advances by exactly 1 per tick up to the 180-second
cap and never exceeds 180 (hence `recordingTime = min n 180` after `n` ticks),
*but* the automatic stop at the cap does not happen: after 181 ticks the
session is still recording — `isRecording`, `recorderActive` and `timerActive`
are all still `true` — because the timer callback's `stopRecording` closure
captured `state.isRecording = false`, so its guard fails and neither
`MediaRecorder.stop()` nor `clearInterval` is ever executed.  The claim's
"a run of 181 ticks ends stopped with elapsed = 180" is false of the code:
elapsed is 180 but the session is not stopped. -/
theorem C1_autostop_broken :
    (∀ n : Nat, (runTicks n).recordingTime = min n 180) ∧
    runTicks 181 =
      { isRecording := true, recordingTime := 180, recorderActive := true,
        timerActive := true, mediaRecorderSet := true } := by
  constructor
  · intro n; rw [runTicks_eq]
  · rw [runTicks_eq]; rfl

/-! ### Media assembler (`mediaRecorder.ondataavailable` / `onstop`)

`ondataavailable` pushes `event.data` onto `chunksRef.current` only when
`event.data.size > 0`; `onstop` concatenates the collected chunks into one
blob.  Byte payloads are modelled as `List Nat`. -/

/-- The `ondataavailable` handler: a fragment is stored only if its size is
positive; empty fragments are dropped (and only logged). -/
def acceptFragment (chunks : List (List Nat)) (d : List Nat) : List (List Nat) :=
  if 0 < d.length then chunks ++ [d] else chunks

/-- The chunk list collected after delivering `arrivals` in arrival order to
`ondataavailable`, starting from the empty `chunksRef`. -/
def collectChunks (arrivals : List (List Nat)) : List (List Nat) :=
  arrivals.foldl acceptFragment []

/-- `new Blob(chunksRef.current)`: byte-level concatenation of the chunks. -/
def assembleBlob (chunks : List (List Nat)) : List Nat := chunks.flatten

theorem collectChunks_from (arrivals : List (List Nat)) (acc : List (List Nat)) :
    arrivals.foldl acceptFragment acc =
      acc ++ arrivals.filter (fun d => decide (0 < d.length)) := by
  induction arrivals generalizing acc with
  | nil => simp
  | cons d t ih =>
    rw [List.foldl_cons, ih, List.filter_cons]
    by_cases h : 0 < d.length
    · simp [acceptFragment, h]
    · simp [acceptFragment, h]

/-- **C2.** The chunks stored by `ondataavailable` are exactly the
positive-length fragments in arrival order (zero-length fragments are never
stored), and the assembled blob is the exact concatenation of those
positive-length fragments in append order. -/
theorem C2_assembler_concatenation (arrivals : List (List Nat)) :
    collectChunks arrivals = arrivals.filter (fun d => decide (0 < d.length)) ∧
    assembleBlob (collectChunks arrivals) =
      (arrivals.filter (fun d => decide (0 < d.length))).flatten := by
  have h := collectChunks_from arrivals []
  constructor
  · simpa [collectChunks] using h
  · simp [collectChunks, assembleBlob, h]

/-! ### `mediaRecorder.onstop`: finalization and the empty-capture case

`onstop` unconditionally builds `blob = new Blob(chunksRef.current)` and
stores it in state as `recordedBlob`; only afterwards it checks `blob.size`
and, if the blob is empty, surfaces the error message below (the non-empty
branch only schedules the preview).  So a zero-byte blob is still stored as
the session's recorded result. -/

def emptyCaptureMsg : String :=
  "Recording completed but no data was captured. Please try again."

/-- The `onstop` handler, restricted to its observable outcome: the
`recordedBlob` stored into state (always `some` of the concatenation) and the
error message surfaced (only when the blob is empty). -/
def onStop (chunks : List (List Nat)) : Option (List Nat) × Option String :=
  let blob := chunks.flatten
  (some blob, if 0 < blob.length then none else some emptyCaptureMsg)

/-- **C5 counterexample.** A session that accepted zero fragments *does*
produce a stored zero-byte result: `onstop` sets `recordedBlob` to the empty
blob (`some []`, not `none`) while also surfacing the empty-capture message —
refuting "yields no AssembledRecording ... instead of producing a zero-byte
result". -/
theorem C5_counterexample :
    (onStop []).1 = some ([] : List Nat) ∧ (onStop []).2 = some emptyCaptureMsg := by
  constructor <;> rfl

/-- **C5 amended.** A completed session always stores the concatenation of its
accepted fragments as `recordedBlob` — including a zero-byte blob when no
fragments were accepted — and the empty-capture error message is surfaced
exactly when that blob is empty. -/
theorem C5_empty_capture_amended (chunks : List (List Nat)) :
    (onStop chunks).1 = some chunks.flatten ∧
    ((onStop chunks).2 = some emptyCaptureMsg ↔ chunks.flatten.length = 0) := by
  refine ⟨rfl, ?_⟩
  by_cases h : 0 < chunks.flatten.length
  · simp only [onStop, if_pos h]
    constructor
    · intro hc; exact absurd hc (by simp)
    · intro hl; omega
  · simp only [onStop, if_neg h]
    constructor
    · intro _; omega
    · intro _; trivial

/-! ### `startRecording`: source acquisition and audio mixing

`startRecording` first requests the display stream (`getDisplayMedia`); a
rejection is caught by the outer `catch`, which builds a human-readable
message from the DOM error name and leaves the session unstarted.  If the
display stream is obtained and the microphone toggle is on, it requests the
microphone (`getUserMedia`) inside an inner `try`: on denial it only sets a
warning and continues with the display stream alone.  On microphone success
it builds a Web Audio graph — the display-audio branch through a gain node at
`0.7`, the microphone branch through a gain node at `1.0`, both into one
`MediaStreamDestination` — and hands the encoder a new stream made of the
display video track plus the mixed audio track. -/

/-- DOM error names distinguished by the outer `catch` of `startRecording`. -/
inductive DomErrName
  | notAllowed
  | notFound
  | notSupported
  | other (m : String)
deriving DecidableEq

/-- The human-readable failure message built in the `catch` block. -/
def displayFailureMessage : DomErrName → String
  | DomErrName.notAllowed =>
      "Failed to start recording. Please grant screen sharing permissions."
  | DomErrName.notFound =>
      "Failed to start recording. No screen sharing source available."
  | DomErrName.notSupported =>
      "Failed to start recording. Screen recording is not supported in this browser."
  | DomErrName.other m => "Failed to start recording. " ++ m

/-- The warning set when `getUserMedia` for the microphone is denied. -/
def micDeniedWarning : String :=
  "Microphone access denied. Recording system audio only."

/-- What `getDisplayMedia` yielded: whether the display stream carries an
audio track (`displayStream.getAudioTracks().length > 0`). -/
structure DisplayStream where
  hasAudio : Bool
deriving DecidableEq

/-- Tracks of the stream handed to `new MediaRecorder(finalStream, ...)`. -/
inductive Track
  | displayVideo
  | displayAudio
  | mixedAudio
deriving DecidableEq

/-- A source branch of the Web Audio mixing graph. -/
inductive MixSource
  | display
  | mic
deriving DecidableEq

/-- Observable outcome of `startRecording`: whether encoding started, the
error/warning message set (if any), the tracks of the stream handed to the
encoder, and the gain of each branch of the audio mixing graph (empty when no
graph was built). -/
structure StartResult where
  started : Bool
  errorMsg : Option String
  tracks : List Track
  mixGains : List (MixSource × ℚ)
deriving DecidableEq

/-- The tracks of the display stream itself (video plus its own audio when
present), used whenever no mixed stream is substituted. -/
def displayTracks (d : DisplayStream) : List Track :=
  Track.displayVideo :: (if d.hasAudio then [Track.displayAudio] else [])

/-- `startRecording`, as a function of the caller's microphone toggle and the
results of the two permission requests.  Gains `0.7` and `1.0` are the source
literals `displayGain.gain.value = 0.7` and `micGain.gain.value = 1.0`. -/
def startRecording (micEnabled : Bool) (display : Except DomErrName DisplayStream)
    (micGranted : Bool) : StartResult :=
  match display with
  | Except.error e =>
      { started := false, errorMsg := some (displayFailureMessage e),
        tracks := [], mixGains := [] }
  | Except.ok d =>
      if micEnabled then
        if micGranted then
          { started := true, errorMsg := none,
            tracks := [Track.displayVideo, Track.mixedAudio],
            mixGains := (if d.hasAudio then [(MixSource.display, (0.7 : ℚ))] else [])
                          ++ [(MixSource.mic, (1.0 : ℚ))] }
        else
          { started := true, errorMsg := some micDeniedWarning,
            tracks := displayTracks d, mixGains := [] }
      else
        { started := true, errorMsg := none,
          tracks := displayTracks d, mixGains := [] }

/-- **C6.** Denial of the display source is fatal — the session does not start
and the caller gets the human-readable message for the DOM error name, with
the three distinguished cases (permission denied / no source / unsupported)
yielding pairwise distinct messages — while denial of the microphone source is
non-fatal: the session still starts, using only the display stream's own
tracks (no mixing graph), and the microphone warning is surfaced. -/
theorem C6_permission_handling :
    (∀ (e : DomErrName) (micEnabled micGranted : Bool),
        (startRecording micEnabled (Except.error e) micGranted).started = false ∧
        (startRecording micEnabled (Except.error e) micGranted).errorMsg =
          some (displayFailureMessage e)) ∧
    (displayFailureMessage DomErrName.notAllowed ≠
        displayFailureMessage DomErrName.notFound ∧
      displayFailureMessage DomErrName.notAllowed ≠
        displayFailureMessage DomErrName.notSupported ∧
      displayFailureMessage DomErrName.notFound ≠
        displayFailureMessage DomErrName.notSupported) ∧
    (∀ d : DisplayStream,
        (startRecording true (Except.ok d) false).started = true ∧
        (startRecording true (Except.ok d) false).errorMsg = some micDeniedWarning ∧
        (startRecording true (Except.ok d) false).tracks = displayTracks d ∧
        (startRecording true (Except.ok d) false).mixGains = []) := by
  refine ⟨fun e _ _ => ⟨rfl, rfl⟩, ⟨by decide, by decide, by decide⟩,
    fun d => ⟨rfl, rfl, rfl, rfl⟩⟩

/-- **C9.** When both display audio and microphone audio are present
(microphone enabled and granted, display stream carrying an audio track), the
audio graph has exactly the display branch at gain 7/10 and the microphone
branch at gain 1, and the stream handed to the encoder consists of the display
video track plus the mixed audio track — the mixed track replaces the display
stream's original audio track. -/
theorem C9_audio_mixing :
    startRecording true (Except.ok ⟨true⟩) true =
      { started := true, errorMsg := none,
        tracks := [Track.displayVideo, Track.mixedAudio],
        mixGains := [(MixSource.display, (7 : ℚ) / 10), (MixSource.mic, 1)] } := by
  have h7 : (0.7 : ℚ) = (7 : ℚ) / 10 := by norm_num
  have h1 : (1.0 : ℚ) = (1 : ℚ) := by norm_num
  simp [startRecording, h7, h1]

/-! ### Upload client (`uploadFile` / `retryUpload` in the file-upload component)

`uploadFile` marks the item `uploading` (progress 0, error cleared), builds
the form data and sends it with an `XMLHttpRequest`.  The `try` block contains
only this synchronous setup — `xhr.send` returns immediately and there is no
`await` inside the `try` — so by the time any `load`/`error`/`timeout`
listener fires, the `try`/`catch` has already completed.  An exception thrown
inside such a DOM event listener propagates to the event loop (`window.onerror`),
*not* to `uploadFile`'s `catch`.  Consequently the `catch` block (which would
set `status: "error"` and increment `retryCount`) is unreachable for network
errors, timeouts and non-200 responses: on those outcomes no state update runs
at all.  Only the 200 branch of the `load` listener updates state. -/

/-- Upload item status, as in the component's `UploadFile` interface. -/
inductive UploadStatus
  | pending
  | uploading
  | success
  | error
deriving DecidableEq

/-- Observable per-item upload state. -/
structure UploadItem where
  status : UploadStatus
  progress : Nat
  retryCount : Nat
  errorMsg : Option String
deriving DecidableEq

/-- How the transfer ends: a `load` event with some HTTP status, a network
error, or a timeout. -/
inductive TransferOutcome
  | load (httpStatus : Nat)
  | networkError
  | timeout
deriving DecidableEq

/-- The synchronous start of `uploadFile`: the item is marked `uploading` with
progress 0 and its error cleared. -/
def uploadStart (it : UploadItem) : UploadItem :=
  { it with status := UploadStatus.uploading, progress := 0, errorMsg := none }

/-- The state update performed by the XHR listeners when the transfer ends.
Only `load` with status 200 updates the item (to `success`, progress 100).
In every other case the listener `throw`s, the exception escapes to the event
loop (the surrounding `try`/`catch` completed when `xhr.send` returned), and
the item is left untouched. -/
def deliverOutcome (o : TransferOutcome) (it : UploadItem) : UploadItem :=
  match o with
  | TransferOutcome.load s =>
      if s = 200 then { it with status := UploadStatus.success, progress := 100 } else it
  | TransferOutcome.networkError => it
  | TransferOutcome.timeout => it

/-- One complete attempt of `uploadFile` with transfer outcome `o`. -/
def uploadFile (o : TransferOutcome) (it : UploadItem) : UploadItem :=
  deliverOutcome o (uploadStart it)

/-- The `catch` block of `uploadFile` (sets `status: "error"`, records the
message, increments `retryCount`).  Included for reference: it is dead code
for asynchronous failures, since those throw inside event listeners. -/
def uploadCatchUpdate (msg : String) (it : UploadItem) : UploadItem :=
  { it with status := UploadStatus.error, errorMsg := some msg,
            retryCount := it.retryCount + 1 }

/-- `retryUpload`: re-runs `uploadFile` only while `retryCount < 3`. -/
def retryUpload (o : TransferOutcome) (it : UploadItem) : UploadItem :=
  if it.retryCount < 3 then uploadFile o it else it

/-- The retry button is rendered only for items with `status === "error"` and
`retryCount < 3`. -/
def retryButtonShown (it : UploadItem) : Bool :=
  (it.status == UploadStatus.error) && (it.retryCount < 3)

/-- `uploadAll` selects items whose status is `pending` or `error` (and then
skips those with an error recorded and `retryCount >= 3`). -/
def eligibleForUploadAll (it : UploadItem) : Bool :=
  ((it.status == UploadStatus.pending) || (it.status == UploadStatus.error))
    && !(it.errorMsg.isSome && (3 ≤ it.retryCount))

/-- **C8.** The retry bookkeeping claimed by the spec is dead code: a fresh
item whose first attempt ends in a network error is left with status
`uploading`, `retryCount` 0 and no error recorded (the listener's `throw` never
reaches the `catch`), so neither the retry button nor `uploadAll` will ever
attempt it again — the claimed fail-then-succeed scenario with 2 attempts
recorded cannot occur.  In particular the resulting item is not the one the
`catch` block would have produced. -/
theorem C8_retry_bookkeeping_dead :
    (uploadFile TransferOutcome.networkError
        ⟨UploadStatus.pending, 0, 0, none⟩).status = UploadStatus.uploading ∧
    (uploadFile TransferOutcome.networkError
        ⟨UploadStatus.pending, 0, 0, none⟩).retryCount = 0 ∧
    (uploadFile TransferOutcome.networkError
        ⟨UploadStatus.pending, 0, 0, none⟩).errorMsg = none ∧
    retryButtonShown (uploadFile TransferOutcome.networkError
        ⟨UploadStatus.pending, 0, 0, none⟩) = false ∧
    eligibleForUploadAll (uploadFile TransferOutcome.networkError
        ⟨UploadStatus.pending, 0, 0, none⟩) = false ∧
    uploadFile TransferOutcome.networkError ⟨UploadStatus.pending, 0, 0, none⟩ ≠
      uploadCatchUpdate "Network error during upload"
        (uploadStart ⟨UploadStatus.pending, 0, 0, none⟩) := by
  decide

/-! ### Streaming responder (`GET /api/recordings/[id]`)

The route parses the `Range` header with
`range.replace(/bytes=/, "").split("-")`, `Number.parseInt(parts[0], 10)` and
`parts[1] ? Number.parseInt(parts[1], 10) : file.length - 1`, then answers
206 with `Content-Range`, `Accept-Ranges`, `Content-Length`, the stored
content type, and the bytes streamed by
`bucket.openDownloadStream(fileId, { start, end: end + 1 })` (the driver's
`end` is exclusive).  Without a `Range` header it answers 200 with the full
content.  JavaScript numbers that may be `NaN` are modelled as `Option Int`
(`none` = `NaN`). -/

/-- Splits a character list at every occurrence of `c`, like
`String.prototype.split` with a one-character separator: `"".split` gives
`[""]`, a trailing separator gives a trailing `""`. -/
def splitOnChar (c : Char) : List Char → List (List Char)
  | [] => [[]]
  | x :: xs =>
      let r := splitOnChar c xs
      if x = c then [] :: r
      else
        match r with
        | [] => [[x]]
        | h :: t => (x :: h) :: t

/-- `String.prototype.replace` with a non-global literal pattern: removes the
first occurrence of `pat` (here `"bytes="`), leaving the rest unchanged. -/
def removeFirstSeq (pat : List Char) : List Char → List Char
  | [] => []
  | x :: xs =>
      if pat.isPrefixOf (x :: xs) then (x :: xs).drop pat.length
      else x :: removeFirstSeq pat xs

/-- Numeric value of a digit character. -/
def digitVal (c : Char) : Nat := c.toNat - Char.toNat '0'

/-- Value of a digit string, most significant first. -/
def natOfDigits (ds : List Char) : Nat :=
  ds.foldl (fun a c => 10 * a + digitVal c) 0

/-- The maximal leading run of decimal digits, as a number; `none` when there
is no leading digit (`parseInt` yields `NaN`). -/
def parseDigitsVal (cs : List Char) : Option Int :=
  let ds := cs.takeWhile (fun c => c.isDigit)
  if ds.isEmpty then none else some (natOfDigits ds : Nat)

/-- `Number.parseInt(s, 10)`: skip leading whitespace, allow one sign, read
the maximal digit run; `none` models `NaN`. -/
def jsParseIntChars (cs : List Char) : Option Int :=
  match cs.dropWhile (fun c => c.isWhitespace) with
  | '-' :: rest => (parseDigitsVal rest).map (fun v => -v)
  | '+' :: rest => parseDigitsVal rest
  | rest => parseDigitsVal rest

/-- JS `+` on possibly-NaN numbers. -/
def jsAdd : Option Int → Option Int → Option Int
  | some a, some b => some (a + b)
  | _, _ => none

/-- JS `-` on possibly-NaN numbers. -/
def jsSub : Option Int → Option Int → Option Int
  | some a, some b => some (a - b)
  | _, _ => none

/-- JS number-to-string in a template literal / `toString()`. -/
def jsNumToString : Option Int → String
  | none => "NaN"
  | some v => toString v

/-- `range.replace(/bytes=/, "").split("-")`. -/
def rangeParts (hdr : String) : List (List Char) :=
  splitOnChar '-' (removeFirstSeq "bytes=".data hdr.data)

/-- `Number.parseInt(parts[0], 10)`. -/
def parsedStart (hdr : String) : Option Int :=
  match rangeParts hdr with
  | [] => none
  | p :: _ => jsParseIntChars p

/-- `parts[1] ? Number.parseInt(parts[1], 10) : file.length - 1` (an absent
or empty `parts[1]` is falsy and defaults to `len - 1`). -/
def parsedEnd (hdr : String) (len : Int) : Option Int :=
  match (rangeParts hdr).drop 1 with
  | [] => some (len - 1)
  | t :: _ => if t.isEmpty then some (len - 1) else jsParseIntChars t

/-- The GridFS download stream (third-party `mongodb` driver, modelled per
spec §4.4): `openDownloadStream` with offsets `start` (inclusive) and `endEx`
(exclusive) delivers exactly the stored bytes of the half-open interval
`[start, endEx)` intersected with `[0, length)`. -/
def gridRead (data : List Nat) (start endEx : Int) : List Nat :=
  if start < 0 then []
  else (data.drop start.toNat).take (endEx - start).toNat

/-- The HTTP response assembled by the streaming route: status, each header it
sets (absent headers are `none`), and the streamed body. -/
structure StreamResponse where
  status : Nat
  contentRange : Option String
  acceptRanges : Option String
  contentLength : String
  contentType : String
  contentDisposition : Option String
  body : List Nat
deriving DecidableEq

/-- `recording.contentType || "video/webm"`. -/
def contentTypeOr (ct : String) : String :=
  if ct = "" then "video/webm" else ct

/-- The found-recording path of `GET /api/recordings/[id]`: `data` is the
stored chunk-set's bytes, `ct` the stored content type, `fn` the stored
filename, `rangeHeader` the request's `Range` header if present.  No
validation or clamping of the parsed range is performed anywhere on this
path. -/
def getRecording (data : List Nat) (ct fn : String) (rangeHeader : Option String) :
    StreamResponse :=
  match rangeHeader with
  | some hdr =>
      let L : Int := data.length
      let s := parsedStart hdr
      let e := parsedEnd hdr L
      let chunksize := jsAdd (jsSub e s) (some 1)
      { status := 206,
        contentRange := some ("bytes " ++ jsNumToString s ++ "-" ++ jsNumToString e
                                ++ "/" ++ toString L),
        acceptRanges := some "bytes",
        contentLength := jsNumToString chunksize,
        contentType := contentTypeOr ct,
        contentDisposition := none,
        body := match s, e with
                | some sv, some ev => gridRead data sv (ev + 1)
                | _, _ => [] }
  | none =>
      { status := 200,
        contentRange := none,
        acceptRanges := none,
        contentLength := toString data.length,
        contentType := contentTypeOr ct,
        contentDisposition := some ("inline; filename=\"" ++ fn ++ "\""),
        body := data }

/-- **C3.** For a stored recording of length `L` and a range request whose
parsed start is `s` and whose parsed (or defaulted) end is `e`, with
`0 ≤ s ≤ e < L`, the route answers 206 with `Content-Range: bytes s-e/L`,
`Accept-Ranges: bytes`, `Content-Length = e - s + 1`, the stored content type,
and a body that is exactly the inclusive byte interval `[s, e]` of the stored
bytes. -/
theorem C3_range_response (data : List Nat) (ct fn hdr : String) (s e : Int)
    (hs : parsedStart hdr = some s) (he : parsedEnd hdr (data.length : Int) = some e)
    (h0 : 0 ≤ s) (_hse : s ≤ e) (_heL : e < (data.length : Int)) (hct : ct ≠ "") :
    getRecording data ct fn (some hdr) =
      { status := 206,
        contentRange := some ("bytes " ++ toString s ++ "-" ++ toString e
                                ++ "/" ++ toString (data.length : Int)),
        acceptRanges := some "bytes",
        contentLength := toString (e - s + 1),
        contentType := ct,
        contentDisposition := none,
        body := (data.drop s.toNat).take (e - s + 1).toNat } := by
  simp only [getRecording, hs, he, jsSub, jsAdd, jsNumToString, contentTypeOr,
    if_neg hct, gridRead, if_neg (not_lt.mpr h0)]
  have : e + 1 - s = e - s + 1 := by ring
  rw [this]

/-- Witness for C3: a 10-byte recording and the range `bytes=2-5`. -/
theorem C3_range_response_witness :
    getRecording (List.range 10) "video/webm" "f.webm" (some "bytes=2-5") =
      { status := 206,
        contentRange := some ("bytes " ++ toString (2 : Int) ++ "-" ++ toString (5 : Int)
                                ++ "/" ++ toString ((List.range 10).length : Int)),
        acceptRanges := some "bytes",
        contentLength := toString ((5 : Int) - 2 + 1),
        contentType := "video/webm",
        contentDisposition := none,
        body := ((List.range 10).drop (2 : Int).toNat).take ((5 : Int) - 2 + 1).toNat } :=
  C3_range_response (List.range 10) "video/webm" "f.webm" "bytes=2-5" 2 5
    (by decide) (by decide) (by decide) (by decide) (by decide) (by decide)

/-- **C7 counterexample.** On a 10-byte recording, the out-of-bounds range
`bytes=0-99` is not answered with a client error and the end is not clamped
to 9: the route answers 206 with `Content-Range: bytes 0-99/10` and
`Content-Length: 100` — refuting both parts of the claim at this input. -/
theorem C7_counterexample :
    (getRecording (List.range 10) "video/webm" "f.webm" (some "bytes=0-99")).status = 206 ∧
    (getRecording (List.range 10) "video/webm" "f.webm" (some "bytes=0-99")).contentRange =
      some "bytes 0-99/10" ∧
    (getRecording (List.range 10) "video/webm" "f.webm" (some "bytes=0-99")).contentLength =
      "100" := by
  refine ⟨rfl, by decide, by decide⟩

/-- **C7 amended.** The route performs no range validation: every request
carrying a `Range` header — malformed or not, in bounds or not — is answered
with status 206, and whenever both values parse, `Content-Range` and
`Content-Length` are computed from the parsed values as-is (an end beyond
`total length − 1` is not clamped in the headers); only the streamed body is
cut off at the stored bytes, never exceeding the stored length. -/
theorem C7_no_validation (data : List Nat) (ct fn hdr : String) :
    (getRecording data ct fn (some hdr)).status = 206 ∧
    (∀ s e : Int, parsedStart hdr = some s →
        parsedEnd hdr (data.length : Int) = some e →
        (getRecording data ct fn (some hdr)).contentRange =
          some ("bytes " ++ toString s ++ "-" ++ toString e
                  ++ "/" ++ toString ((data.length : Nat) : Int)) ∧
        (getRecording data ct fn (some hdr)).contentLength = toString (e - s + 1) ∧
        (getRecording data ct fn (some hdr)).body = gridRead data s (e + 1)) ∧
    (getRecording data ct fn (some hdr)).body.length ≤ data.length := by
  refine ⟨rfl, ?_, ?_⟩
  · intro s e hs he
    simp [getRecording, hs, he, jsSub, jsAdd, jsNumToString]
  · simp only [getRecording]
    cases hs : parsedStart hdr with
    | none => simp
    | some sv =>
        cases he : parsedEnd hdr (data.length : Int) with
        | none => simp
        | some ev =>
            simp only [gridRead]
            by_cases hneg : sv < 0
            · simp [hneg]
            · simp only [if_neg hneg]
              have h1 := List.length_take ((ev + 1 - sv).toNat) (data.drop sv.toNat)
              have h2 := List.length_drop (sv.toNat) data
              omega

/-- Witness for C7: the out-of-bounds range `bytes=0-99` on a 10-byte
recording parses to start 0 and end 99, and the headers carry the unclamped
values. -/
theorem C7_no_validation_witness :
    (getRecording (List.range 10) "video/webm" "f.webm" (some "bytes=0-99")).status = 206 ∧
    parsedStart "bytes=0-99" = some 0 ∧
    parsedEnd "bytes=0-99" ((List.range 10).length : Int) = some 99 ∧
    (getRecording (List.range 10) "video/webm" "f.webm" (some "bytes=0-99")).contentRange =
      some ("bytes " ++ toString (0 : Int) ++ "-" ++ toString (99 : Int)
              ++ "/" ++ toString (((List.range 10).length : Nat) : Int)) := by
  refine ⟨(C7_no_validation (List.range 10) "video/webm" "f.webm" "bytes=0-99").1,
    by decide, by decide,
    ((C7_no_validation (List.range 10) "video/webm" "f.webm" "bytes=0-99").2.1 0 99
      (by decide) (by decide)).1⟩

/-! ### `DELETE /api/recordings/[id]`

The route validates the id (400), looks up the record (404), then runs
`await bucket.delete(recording.fileId)` and only afterwards
`await Recording.findByIdAndDelete(id)`; any thrown error lands in the
`catch`, which answers 500 without performing the remaining steps.  So a
failing chunk deletion leaves the metadata record untouched. -/

/-- The two destructive steps of the delete route, in execution order. -/
inductive DelAction
  | deleteChunks
  | deleteRecord
deriving DecidableEq

/-- Store contents relevant to one recording: whether its metadata record and
its GridFS chunk-set exist. -/
structure DeleteState where
  recordExists : Bool
  chunksExist : Bool
deriving DecidableEq

/-- Outcome of the delete route: HTTP status, success message / error message
bodies, resulting store state, and the destructive steps executed in order. -/
structure DeleteOutcome where
  status : Nat
  message : Option String
  errorBody : Option String
  state : DeleteState
  trace : List DelAction
deriving DecidableEq

/-- `DELETE /api/recordings/[id]`.  `validId` is `ObjectId.isValid(id)`;
`chunkDeleteFails` says whether `bucket.delete` throws. -/
def deleteRecording (validId : Bool) (st : DeleteState) (chunkDeleteFails : Bool) :
    DeleteOutcome :=
  if validId = false then
    ⟨400, none, some "Invalid recording ID", st, []⟩
  else if st.recordExists = false then
    ⟨404, none, some "Recording not found", st, []⟩
  else if chunkDeleteFails then
    ⟨500, none, some "Failed to delete recording", st, []⟩
  else
    let st1 : DeleteState := { st with chunksExist := false }
    let st2 : DeleteState := { st1 with recordExists := false }
    ⟨200, some "Recording deleted successfully", none, st2,
      [DelAction.deleteChunks, DelAction.deleteRecord]⟩

/-- **C4.** For an existing recording with a valid id: the chunk-set is
deleted strictly before the metadata record (the successful trace is
`[deleteChunks, deleteRecord]`); when chunk deletion fails the route answers
500, performs no deletion at all — in particular the record still exists and
remains queryable; on success it answers 200 with a message and both the
chunk-set and the record are gone. -/
theorem C4_delete_ordering (st : DeleteState) (hrec : st.recordExists = true) :
    ((deleteRecording true st true).status = 500 ∧
      (deleteRecording true st true).state.recordExists = true ∧
      (deleteRecording true st true).trace = []) ∧
    ((deleteRecording true st false).status = 200 ∧
      (deleteRecording true st false).message = some "Recording deleted successfully" ∧
      (deleteRecording true st false).state.recordExists = false ∧
      (deleteRecording true st false).state.chunksExist = false ∧
      (deleteRecording true st false).trace =
        [DelAction.deleteChunks, DelAction.deleteRecord]) := by
  simp [deleteRecording, hrec]

/-- Witness for C4: a store holding both the record and its chunk-set. -/
theorem C4_delete_ordering_witness :
    ((deleteRecording true ⟨true, true⟩ true).status = 500 ∧
      (deleteRecording true ⟨true, true⟩ true).state.recordExists = true ∧
      (deleteRecording true ⟨true, true⟩ true).trace = []) ∧
    ((deleteRecording true ⟨true, true⟩ false).status = 200 ∧
      (deleteRecording true ⟨true, true⟩ false).message =
        some "Recording deleted successfully" ∧
      (deleteRecording true ⟨true, true⟩ false).state.recordExists = false ∧
      (deleteRecording true ⟨true, true⟩ false).state.chunksExist = false ∧
      (deleteRecording true ⟨true, true⟩ false).trace =
        [DelAction.deleteChunks, DelAction.deleteRecord]) :=
  C4_delete_ordering ⟨true, true⟩ rfl

/-! ### `POST /api/recordings`

The route rejects a missing file, a non-`video/` content type, and a file
over 100 MB with 400.  Otherwise it first pipes the binary into GridFS
(creating the chunk-set) and only then constructs and `save()`s the mongoose
`Recording` document; a validation failure there (the schema requires
`0 ≤ duration ≤ 180`, a title of at most 200 characters, and a `video/`
content type) throws, lands in the `catch`, and yields 500 — with no cleanup
of the already-written chunk-set. -/

/-- `file.type.startsWith("video/")`. -/
def startsWithVideo (t : String) : Bool :=
  "video/".data.isPrefixOf t.data

/-- Server-side store: the GridFS chunk-sets (by file id) and the `fileId`
referenced by each saved metadata record. -/
structure MediaStore where
  chunkSets : List Nat
  records : List Nat
deriving DecidableEq

/-- JS `x || 0` on a possibly-NaN number (`duration || 0`). -/
def jsOrZero : Option Int → Int
  | none => 0
  | some v => v

/-- The 100 MB upload limit. -/
def maxUploadSize : Nat := 100 * 1024 * 1024

/-- The mongoose `RecordingSchema` validation run by `recording.save()`:
`duration` within `0..180`, title length at most 200, content type starting
with `video/`. -/
def recordingSchemaValid (effTitle : String) (effDuration : Int) (ct : String) : Bool :=
  (0 ≤ effDuration && effDuration ≤ 180) && (effTitle.length ≤ 200) && startsWithVideo ct

/-- `POST /api/recordings`: `hasFile` is whether the multipart field is
present, `fileType`/`fileSize` the file's type and size, `title` the supplied
title (`""` when absent, replaced by the generated default), `duration` the
`Number.parseInt` of the form value (`none` = NaN), `newFileId` the GridFS id
assigned to the uploaded chunk-set. -/
def postRecording (hasFile : Bool) (fileType : String) (fileSize : Nat) (title : String)
    (duration : Option Int) (newFileId : Nat) (st : MediaStore) : Nat × MediaStore :=
  if hasFile = false then (400, st)
  else if startsWithVideo fileType = false then (400, st)
  else if maxUploadSize < fileSize then (400, st)
  else
    let st1 : MediaStore := { st with chunkSets := st.chunkSets ++ [newFileId] }
    let effTitle := if title = "" then "Recording (generated title)" else title
    let effDuration := jsOrZero duration
    if recordingSchemaValid effTitle effDuration fileType then
      (200, { st1 with records := st1.records ++ [newFileId] })
    else (500, st1)

/-- **C10.** With a valid video file within the size limit but a supplied
duration above the schema maximum of 180, the route writes the chunk-set to
GridFS, then fails the metadata save and answers 500 with the chunk-set still
present and no record saved: the freshly written chunk-set is orphaned — it is
in the store but no record references it. -/
theorem C10_orphaned_chunkset (st : MediaStore) (ft title : String) (sz : Nat)
    (d : Int) (fid : Nat) (hft : startsWithVideo ft = true) (hsz : sz ≤ maxUploadSize)
    (hd : 180 < d) (hfid : fid ∉ st.records) :
    (postRecording true ft sz title (some d) fid st).1 = 500 ∧
    (postRecording true ft sz title (some d) fid st).2.chunkSets =
      st.chunkSets ++ [fid] ∧
    (postRecording true ft sz title (some d) fid st).2.records = st.records ∧
    fid ∈ (postRecording true ft sz title (some d) fid st).2.chunkSets ∧
    fid ∉ (postRecording true ft sz title (some d) fid st).2.records := by
  have hdur : recordingSchemaValid (if title = "" then "Recording (generated title)"
      else title) (jsOrZero (some d)) ft = false := by
    simp only [recordingSchemaValid, jsOrZero, Bool.and_eq_false_iff]
    left; left
    simp only [Bool.and_eq_false_iff, decide_eq_false_iff_not, not_le]
    right; omega
  simp only [postRecording, hft, Bool.true_eq_false, if_false, hdur,
    if_neg (not_lt.mpr hsz)]
  refine ⟨by simp, by simp, by simp, by simp, by simpa using hfid⟩

/-- Witness for C10: an empty store, a 5-byte `video/webm` file and the
supplied duration 200. -/
theorem C10_orphaned_chunkset_witness :
    (postRecording true "video/webm" 5 "t" (some 200) 1 ⟨[], []⟩).1 = 500 ∧
    (postRecording true "video/webm" 5 "t" (some 200) 1 ⟨[], []⟩).2.chunkSets =
      [] ++ [1] ∧
    (postRecording true "video/webm" 5 "t" (some 200) 1 ⟨[], []⟩).2.records = [] ∧
    1 ∈ (postRecording true "video/webm" 5 "t" (some 200) 1 ⟨[], []⟩).2.chunkSets ∧
    1 ∉ (postRecording true "video/webm" 5 "t" (some 200) 1 ⟨[], []⟩).2.records :=
  C10_orphaned_chunkset ⟨[], []⟩ "video/webm" "t" 5 200 1 (by decide)
    (by decide) (by decide) (by decide)

end SRP
